import Mathlib

/-!
Verification development for the `lambda_universal_router` Python package.

The router receives one deserialized JSON-like payload per invocation and
routes it to the first registered handler whose `can_handle` predicate
accepts the payload, falling back to at most one registered custom handler.

We shallowly embed the relevant Python code:
* payload values become the inductive type `JVal` (JSON-like Python values);
* the Python operations the router uses (`len`, subscripting, `in`,
  `dict.get`, iteration) become `Except`-valued functions that return
  `.error` exactly where the Python operation raises;
* each handler's `can_handle` / `parse_event`, the typed event models, and
  `Router.dispatch` / registration become Lean functions over these.
-/

namespace LUR

/-- JSON-like Python values as they appear in Lambda payloads: `None`,
booleans, ints, floats (only integral float literals occur as defaults),
strings, bytes, lists and string-keyed dicts. -/
inductive JVal where
  | null
  | bool (b : Bool)
  | int (n : Int)
  | float (z : Int)
  | str (s : String)
  | bytes (bs : List Nat)
  | arr (items : List JVal)
  | obj (fields : List (String × JVal))

/-- A Python `Dict[str, Any]`: the type of top-level Lambda event payloads. -/
abbrev Dict := List (String × JVal)

/-- The Python exceptions the embedded code can raise. -/
inductive PyErr where
  | typeError
  | keyError
  | indexError
  | attributeError
  | valueError (msg : String)
deriving DecidableEq, Repr

/-- Dictionary lookup (`k in d` / `d[k]` / `d.get(k)` on a string-keyed dict). -/
def dlookup : Dict → String → Option JVal
  | [], _ => none
  | (k, v) :: t, key => if k = key then some v else dlookup t key

/-- Python `v == s` for a string literal `s`: equal only when `v` is that
string (cross-type `==` between a string and a non-string is `False`). -/
def pyEqStr (v : JVal) (s : String) : Bool :=
  match v with
  | .str t => t = s
  | _ => false

/-- Whether the character list `n` occurs contiguously inside `h`
(Python substring containment `n in h` on strings). -/
def listInfix (n h : List Char) : Bool :=
  n.isPrefixOf h ||
    match h with
    | [] => false
    | _ :: t => listInfix n t

/-- Python `len(v)`: defined on strings, bytes, lists and dicts,
`TypeError` otherwise. -/
def pyLen : JVal → Except PyErr Nat
  | .str s => .ok s.data.length
  | .bytes bs => .ok bs.length
  | .arr l => .ok l.length
  | .obj kvs => .ok kvs.length
  | _ => .error .typeError

/-- Python `v[0]`: first element of a list, first character of a string
(as a 1-character string), first byte of a bytes object (as an int);
`KeyError` on a string-keyed dict, `TypeError` otherwise. -/
def pyIndex0 : JVal → Except PyErr JVal
  | .arr [] => .error .indexError
  | .arr (x :: _) => .ok x
  | .str s =>
    match s.data with
    | [] => .error .indexError
    | c :: _ => .ok (.str (String.mk [c]))
  | .bytes [] => .error .indexError
  | .bytes (b :: _) => .ok (.int b)
  | .obj _ => .error .keyError
  | _ => .error .typeError

/-- Python `k in v` for a string `k`: key test on dicts, substring test on
strings, membership (via `==`) on lists; `TypeError` on non-containers. -/
def pyContains (k : String) : JVal → Except PyErr Bool
  | .obj kvs => .ok (kvs.any (fun kv => kv.1 = k))
  | .str s => .ok (listInfix k.data s.data)
  | .arr l => .ok (l.any (fun v => pyEqStr v k))
  | _ => .error .typeError

/-- Python `v[k]` for a string `k`: dict item lookup (`KeyError` when the
key is absent), `TypeError` on every other type. -/
def pyGetItemStr (v : JVal) (k : String) : Except PyErr JVal :=
  match v with
  | .obj kvs =>
    match dlookup kvs k with
    | some x => .ok x
    | none => .error .keyError
  | _ => .error .typeError

/-- Python `v.get(k, dflt)`: only dicts have a `.get` attribute, every
other receiver raises `AttributeError`. -/
def pyGet (v : JVal) (k : String) (dflt : JVal) : Except PyErr JVal :=
  match v with
  | .obj kvs => .ok ((dlookup kvs k).getD dflt)
  | _ => .error .attributeError

/-- Python iteration `for x in v`: yields list elements, the keys of a
dict, 1-character strings for a string, ints for bytes; `TypeError` on
non-iterables. -/
def pyIter : JVal → Except PyErr (List JVal)
  | .arr l => .ok l
  | .obj kvs => .ok (kvs.map (fun kv => .str kv.1))
  | .str s => .ok (s.data.map (fun c => .str (String.mk [c])))
  | .bytes bs => .ok (bs.map (fun b => .int b))
  | _ => .error .typeError

/-- Map an `Except`-valued function over a list, propagating the first
error (the semantics of a Python list comprehension whose body may raise). -/
def listMapE (f : α → Except PyErr β) : List α → Except PyErr (List β)
  | [] => .ok []
  | x :: t =>
    match f x with
    | .error e => .error e
    | .ok y =>
      match listMapE f t with
      | .error e => .error e
      | .ok ys => .ok (y :: ys)

/-! ### Typed event models (`events/*.py`)

Python dataclass fields carry no runtime type enforcement, so every field
is a `JVal`; `data.get(key, default)` becomes `pyGet`, which raises
`AttributeError` on a non-dict receiver exactly as Python does.
Each event also keeps `raw_event`, as `BaseEvent.__init__` does. -/

/-- One SQS message (`events/sqs.py`). -/
structure SQSMessage where
  message_id : JVal
  body : JVal
  attributes : JVal

/-- Embeds `SQSMessage.from_dict`. -/
def SQSMessage.from_dict (data : JVal) : Except PyErr SQSMessage := do
  let mid ← pyGet data "messageId" (.str "")
  let b ← pyGet data "body" (.str "")
  let attrs ← pyGet data "messageAttributes" (.obj [])
  .ok ⟨mid, b, attrs⟩

/-- The SQS typed event. -/
structure SQSEvent where
  raw_event : Dict
  records : List SQSMessage

/-- Embeds `SQSEvent(event)`: store the raw event and run `_parse_event`. -/
def SQSEvent.of_event (e : Dict) : Except PyErr SQSEvent := do
  let items ← pyIter ((dlookup e "Records").getD (.arr []))
  let recs ← listMapE SQSMessage.from_dict items
  .ok ⟨e, recs⟩

/-- One S3 object reference (`events/s3.py`). -/
structure S3Object where
  key : JVal
  size : JVal
  etag : JVal

/-- Embeds `S3Object.from_dict`. -/
def S3Object.from_dict (data : JVal) : Except PyErr S3Object := do
  let k ← pyGet data "key" (.str "")
  let sz ← pyGet data "size" (.int 0)
  let et ← pyGet data "eTag" (.str "")
  .ok ⟨k, sz, et⟩

/-- One S3 bucket reference. -/
structure S3Bucket where
  name : JVal
  arn : JVal

/-- Embeds `S3Bucket.from_dict`. -/
def S3Bucket.from_dict (data : JVal) : Except PyErr S3Bucket := do
  let n ← pyGet data "name" (.str "")
  let a ← pyGet data "arn" (.str "")
  .ok ⟨n, a⟩

/-- One S3 record. -/
structure S3Record where
  event_name : JVal
  event_time : JVal
  bucket : S3Bucket
  s3_object : S3Object

/-- Embeds `S3Record.from_dict`. -/
def S3Record.from_dict (data : JVal) : Except PyErr S3Record := do
  let s3_data ← pyGet data "s3" (.obj [])
  let en ← pyGet data "eventName" (.str "")
  let et ← pyGet data "eventTime" (.str "")
  let bd ← pyGet s3_data "bucket" (.obj [])
  let b ← S3Bucket.from_dict bd
  let od ← pyGet s3_data "object" (.obj [])
  let o ← S3Object.from_dict od
  .ok ⟨en, et, b, o⟩

/-- The S3 typed event. -/
structure S3Event where
  raw_event : Dict
  records : List S3Record

/-- Embeds `S3Event(event)`. -/
def S3Event.of_event (e : Dict) : Except PyErr S3Event := do
  let items ← pyIter ((dlookup e "Records").getD (.arr []))
  let recs ← listMapE S3Record.from_dict items
  .ok ⟨e, recs⟩

/-- One DynamoDB stream record (`events/dynamodb.py`). -/
structure DynamoDBStreamRecord where
  event_id : JVal
  event_name : JVal
  event_version : JVal
  event_source : JVal
  aws_region : JVal
  dynamodb : JVal

/-- Embeds `DynamoDBStreamRecord.from_dict`. -/
def DynamoDBStreamRecord.from_dict (data : JVal) : Except PyErr DynamoDBStreamRecord := do
  let eid ← pyGet data "eventID" (.str "")
  let en ← pyGet data "eventName" (.str "")
  let ev ← pyGet data "eventVersion" (.str "")
  let es ← pyGet data "eventSource" (.str "")
  let ar ← pyGet data "awsRegion" (.str "")
  let dy ← pyGet data "dynamodb" (.obj [])
  .ok ⟨eid, en, ev, es, ar, dy⟩

/-- The DynamoDB stream typed event. -/
structure DynamoDBStreamEvent where
  raw_event : Dict
  records : List DynamoDBStreamRecord

/-- Embeds `DynamoDBStreamEvent(event)`. -/
def DynamoDBStreamEvent.of_event (e : Dict) : Except PyErr DynamoDBStreamEvent := do
  let items ← pyIter ((dlookup e "Records").getD (.arr []))
  let recs ← listMapE DynamoDBStreamRecord.from_dict items
  .ok ⟨e, recs⟩

/-- One Kinesis record (`events/kinesis.py`). -/
structure KinesisRecord where
  kinesis_schema_version : JVal
  partition_key : JVal
  sequence_number : JVal
  data : JVal
  approximate_arrival_timestamp : JVal

/-- Embeds `KinesisRecord.from_dict`. -/
def KinesisRecord.from_dict (data : JVal) : Except PyErr KinesisRecord := do
  let kinesis_data ← pyGet data "kinesis" (.obj [])
  let ksv ← pyGet kinesis_data "kinesisSchemaVersion" (.str "")
  let pk ← pyGet kinesis_data "partitionKey" (.str "")
  let sn ← pyGet kinesis_data "sequenceNumber" (.str "")
  let d ← pyGet kinesis_data "data" (.bytes [])
  let ts ← pyGet kinesis_data "approximateArrivalTimestamp" (.float 0)
  .ok ⟨ksv, pk, sn, d, ts⟩

/-- The Kinesis stream typed event. -/
structure KinesisStreamEvent where
  raw_event : Dict
  records : List KinesisRecord

/-- Embeds `KinesisStreamEvent(event)`. -/
def KinesisStreamEvent.of_event (e : Dict) : Except PyErr KinesisStreamEvent := do
  let items ← pyIter ((dlookup e "Records").getD (.arr []))
  let recs ← listMapE KinesisRecord.from_dict items
  .ok ⟨e, recs⟩

/-- One SNS message (`events/sns.py`). -/
structure SNSMessage where
  message_id : JVal
  topic_arn : JVal
  message : JVal
  subject : JVal
  timestamp : JVal
  message_attributes : JVal

/-- Embeds `SNSMessage.from_dict`. -/
def SNSMessage.from_dict (data : JVal) : Except PyErr SNSMessage := do
  let sns ← pyGet data "Sns" (.obj [])
  let mid ← pyGet sns "MessageId" (.str "")
  let ta ← pyGet sns "TopicArn" (.str "")
  let msg ← pyGet sns "Message" (.str "")
  let sub ← pyGet sns "Subject" (.str "")
  let ts ← pyGet sns "Timestamp" (.str "")
  let ma ← pyGet sns "MessageAttributes" (.obj [])
  .ok ⟨mid, ta, msg, sub, ts, ma⟩

/-- The SNS typed event. -/
structure SNSEvent where
  raw_event : Dict
  records : List SNSMessage

/-- Embeds `SNSEvent(event)`. -/
def SNSEvent.of_event (e : Dict) : Except PyErr SNSEvent := do
  let items ← pyIter ((dlookup e "Records").getD (.arr []))
  let recs ← listMapE SNSMessage.from_dict items
  .ok ⟨e, recs⟩

/-- The opaque detail payload of an EventBridge event (`events/eventbridge.py`). -/
structure EventBridgeDetail where
  raw_detail : JVal

/-- Embeds `EventBridgeDetail.from_dict` (total: stores the value verbatim). -/
def EventBridgeDetail.from_dict (data : JVal) : EventBridgeDetail := ⟨data⟩

/-- The EventBridge typed event. -/
structure EventBridgeEvent where
  raw_event : Dict
  version : JVal
  id : JVal
  detail_type : JVal
  source : JVal
  account : JVal
  time : JVal
  region : JVal
  resources : JVal
  detail : EventBridgeDetail

/-- Embeds `EventBridgeEvent(event)`: only total top-level `.get` calls. -/
def EventBridgeEvent.of_event (e : Dict) : EventBridgeEvent :=
  { raw_event := e
    version := (dlookup e "version").getD (.str "")
    id := (dlookup e "id").getD (.str "")
    detail_type := (dlookup e "detail-type").getD (.str "")
    source := (dlookup e "source").getD (.str "")
    account := (dlookup e "account").getD (.str "")
    time := (dlookup e "time").getD (.str "")
    region := (dlookup e "region").getD (.str "")
    resources := (dlookup e "resources").getD (.arr [])
    detail := EventBridgeDetail.from_dict ((dlookup e "detail").getD (.obj [])) }

/-- The identity block of an API Gateway request context (`events/api_gateway.py`). -/
structure APIGatewayIdentity where
  cognito_identity_pool_id : JVal
  account_id : JVal
  cognito_identity_id : JVal
  caller : JVal
  api_key : JVal
  source_ip : JVal
  cognito_authentication_type : JVal
  cognito_authentication_provider : JVal
  user_arn : JVal
  user_agent : JVal
  user : JVal
  access_key : JVal

/-- Embeds `APIGatewayIdentity.from_dict`. -/
def APIGatewayIdentity.from_dict (data : JVal) : Except PyErr APIGatewayIdentity := do
  let cip ← pyGet data "cognitoIdentityPoolId" (.str "")
  let aid ← pyGet data "accountId" (.str "")
  let cid ← pyGet data "cognitoIdentityId" (.str "")
  let cal ← pyGet data "caller" (.str "")
  let ak ← pyGet data "apiKey" (.str "")
  let sip ← pyGet data "sourceIp" (.str "")
  let cat ← pyGet data "cognitoAuthenticationType" (.str "")
  let cap ← pyGet data "cognitoAuthenticationProvider" (.str "")
  let ua ← pyGet data "userArn" (.str "")
  let uag ← pyGet data "userAgent" (.str "")
  let u ← pyGet data "user" (.str "")
  let acc ← pyGet data "accessKey" (.str "")
  .ok ⟨cip, aid, cid, cal, ak, sip, cat, cap, ua, uag, u, acc⟩

/-- The API Gateway request context. -/
structure APIGatewayRequestContext where
  account_id : JVal
  resource_id : JVal
  operation_name : JVal
  stage : JVal
  domain_name : JVal
  domain_prefix : JVal
  request_id : JVal
  protocol : JVal
  identity : APIGatewayIdentity
  resource_path : JVal
  http_method : JVal
  request_time : JVal
  request_time_epoch : JVal
  path : JVal

/-- Embeds `APIGatewayRequestContext.from_dict`. -/
def APIGatewayRequestContext.from_dict (data : JVal) :
    Except PyErr APIGatewayRequestContext := do
  let aid ← pyGet data "accountId" (.str "")
  let rid ← pyGet data "resourceId" (.str "")
  let opn ← pyGet data "operationName" (.str "")
  let st ← pyGet data "stage" (.str "")
  let dn ← pyGet data "domainName" (.str "")
  let dp ← pyGet data "domainPrefix" (.str "")
  let rq ← pyGet data "requestId" (.str "")
  let pr ← pyGet data "protocol" (.str "")
  let idd ← pyGet data "identity" (.obj [])
  let idn ← APIGatewayIdentity.from_dict idd
  let rp ← pyGet data "resourcePath" (.str "")
  let hm ← pyGet data "httpMethod" (.str "")
  let rt ← pyGet data "requestTime" (.str "")
  let rte ← pyGet data "requestTimeEpoch" (.int 0)
  let p ← pyGet data "path" (.str "")
  .ok ⟨aid, rid, opn, st, dn, dp, rq, pr, idn, rp, hm, rt, rte, p⟩

/-- The API Gateway typed event. -/
structure APIGatewayEvent where
  raw_event : Dict
  version : JVal
  resource : JVal
  path : JVal
  http_method : JVal
  headers : JVal
  multi_value_headers : JVal
  query_string_parameters : JVal
  multi_value_query_string_parameters : JVal
  path_parameters : JVal
  stage_variables : JVal
  request_context : APIGatewayRequestContext
  body : JVal
  is_base64_encoded : JVal

/-- Embeds `APIGatewayEvent(event)`: total top-level `.get` calls plus the
nested request-context parse, which can raise on a non-dict context. -/
def APIGatewayEvent.of_event (e : Dict) : Except PyErr APIGatewayEvent := do
  let rc ← APIGatewayRequestContext.from_dict ((dlookup e "requestContext").getD (.obj []))
  .ok
    { raw_event := e
      version := (dlookup e "version").getD (.str "")
      resource := (dlookup e "resource").getD (.str "")
      path := (dlookup e "path").getD (.str "")
      http_method := (dlookup e "httpMethod").getD (.str "")
      headers := (dlookup e "headers").getD (.obj [])
      multi_value_headers := (dlookup e "multiValueHeaders").getD (.obj [])
      query_string_parameters := (dlookup e "queryStringParameters").getD (.obj [])
      multi_value_query_string_parameters :=
        (dlookup e "multiValueQueryStringParameters").getD (.obj [])
      path_parameters := (dlookup e "pathParameters").getD (.obj [])
      stage_variables := (dlookup e "stageVariables").getD (.obj [])
      request_context := rc
      body := (dlookup e "body").getD (.str "")
      is_base64_encoded := (dlookup e "isBase64Encoded").getD (.bool false) }

/-- One Kafka record (`events/kafka.py`). -/
structure KafkaRecord where
  topic : JVal
  partition : JVal
  offset : JVal
  timestamp : JVal
  timestamp_type : JVal
  key : JVal
  value : JVal
  headers : JVal

/-- Embeds `KafkaRecord.from_dict`. -/
def KafkaRecord.from_dict (data : JVal) : Except PyErr KafkaRecord := do
  let tp ← pyGet data "topic" (.str "")
  let pa ← pyGet data "partition" (.int 0)
  let off ← pyGet data "offset" (.int 0)
  let ts ← pyGet data "timestamp" (.int 0)
  let tt ← pyGet data "timestampType" (.str "")
  let k ← pyGet data "key" (.bytes [])
  let v ← pyGet data "value" (.bytes [])
  let hd ← pyGet data "headers" (.arr [])
  .ok ⟨tp, pa, off, ts, tt, k, v, hd⟩

/-- The Kafka (Amazon MSK) typed event. -/
structure KafkaEvent where
  raw_event : Dict
  event_source : JVal
  event_source_arn : JVal
  bootstrap_servers : JVal
  records : List KafkaRecord

/-- Embeds `KafkaEvent(event)`: when `records` is a dict, Python replaces
it with `list(records.values())` before iterating. -/
def KafkaEvent.of_event (e : Dict) : Except PyErr KafkaEvent := do
  let rv := (dlookup e "records").getD (.arr [])
  let items ←
    match rv with
    | .obj kvs => .ok (kvs.map Prod.snd)
    | _ => pyIter rv
  let recs ← listMapE KafkaRecord.from_dict items
  .ok
    { raw_event := e
      event_source := (dlookup e "eventSource").getD (.str "")
      event_source_arn := (dlookup e "eventSourceArn").getD (.str "")
      bootstrap_servers := (dlookup e "bootstrapServers").getD (.str "")
      records := recs }

/-- The custom (fallback) typed event (`events/custom.py`): stores the
whole payload as-is. -/
structure CustomEvent where
  raw_event : Dict
  event_data : Dict

/-- Embeds `CustomEvent(event)` (total: identity parse). -/
def CustomEvent.of_event (e : Dict) : CustomEvent := ⟨e, e⟩

/-! ### Handlers (`handlers.py`) -/

/-- The shared body of the five record-batch `can_handle` tests
(`SQSHandler`, `S3Handler`, `DynamoDBStreamHandler`, `KinesisStreamHandler`
with `key = "eventSource"`, `SNSHandler` with `key = "EventSource"`):

`key0 in event and len(event[key0]) > 0 and key in event[key0][0] and
event[key0][0][key] == tag` with `key0 = "Records"`, with Python's
short-circuit evaluation and each operation's exception behaviour. -/
def batch_can_handle (key tag : String) (e : Dict) : Except PyErr Bool :=
  match dlookup e "Records" with
  | none => .ok false
  | some r =>
    match pyLen r with
    | .error err => .error err
    | .ok 0 => .ok false
    | .ok (_ + 1) =>
      match pyIndex0 r with
      | .error err => .error err
      | .ok r0 =>
        match pyContains key r0 with
        | .error err => .error err
        | .ok false => .ok false
        | .ok true =>
          match pyGetItemStr r0 key with
          | .error err => .error err
          | .ok v => .ok (pyEqStr v tag)

/-- Embeds `APIGatewayHandler.can_handle`: three top-level key tests. -/
def APIGatewayHandler.can_handle (e : Dict) : Except PyErr Bool :=
  .ok ((dlookup e "httpMethod").isSome && (dlookup e "path").isSome &&
    (dlookup e "requestContext").isSome)

/-- Embeds `SQSHandler.can_handle`. -/
def SQSHandler.can_handle : Dict → Except PyErr Bool :=
  batch_can_handle "eventSource" "aws:sqs"

/-- Embeds `S3Handler.can_handle`. -/
def S3Handler.can_handle : Dict → Except PyErr Bool :=
  batch_can_handle "eventSource" "aws:s3"

/-- Embeds `DynamoDBStreamHandler.can_handle`. -/
def DynamoDBStreamHandler.can_handle : Dict → Except PyErr Bool :=
  batch_can_handle "eventSource" "aws:dynamodb"

/-- Embeds `KinesisStreamHandler.can_handle`. -/
def KinesisStreamHandler.can_handle : Dict → Except PyErr Bool :=
  batch_can_handle "eventSource" "aws:kinesis"

/-- Embeds `SNSHandler.can_handle`: note the capitalized `EventSource` key. -/
def SNSHandler.can_handle : Dict → Except PyErr Bool :=
  batch_can_handle "EventSource" "aws:sns"

/-- Embeds `EventBridgeHandler.can_handle`: three top-level key tests. -/
def EventBridgeHandler.can_handle (e : Dict) : Except PyErr Bool :=
  .ok ((dlookup e "source").isSome && (dlookup e "detail-type").isSome &&
    (dlookup e "detail").isSome)

/-- Embeds `KafkaHandler.can_handle`:
`'eventSource' in event and event['eventSource'] in
['aws:kafka', 'aws:self-managed-kafka'] and 'records' in event`;
short-circuiting makes the subscript safe, so this is total. -/
def KafkaHandler.can_handle (e : Dict) : Except PyErr Bool :=
  match dlookup e "eventSource" with
  | none => .ok false
  | some v =>
    .ok ((pyEqStr v "aws:kafka" || pyEqStr v "aws:self-managed-kafka") &&
      (dlookup e "records").isSome)

/-- Embeds `CustomHandler.can_handle`: accepts any event. -/
def CustomHandler.can_handle (_ : Dict) : Except PyErr Bool := .ok true

/-- The closed set of handler variants held in `Router._event_handlers`. -/
inductive HandlerKind where
  | apigateway
  | sqs
  | s3
  | dynamodb
  | kinesis
  | sns
  | eventbridge
  | kafka
  | custom
deriving DecidableEq, Repr

/-- The typed event produced by a handler's `parse_event`, as one sum. -/
inductive ParsedEvent where
  | apigateway (ev : APIGatewayEvent)
  | sqs (ev : SQSEvent)
  | s3 (ev : S3Event)
  | dynamodb (ev : DynamoDBStreamEvent)
  | kinesis (ev : KinesisStreamEvent)
  | sns (ev : SNSEvent)
  | eventbridge (ev : EventBridgeEvent)
  | kafka (ev : KafkaEvent)
  | custom (ev : CustomEvent)

/-- Dispatch-level `can_handle`: selects the variant's predicate. -/
def can_handle : HandlerKind → Dict → Except PyErr Bool
  | .apigateway => APIGatewayHandler.can_handle
  | .sqs => SQSHandler.can_handle
  | .s3 => S3Handler.can_handle
  | .dynamodb => DynamoDBStreamHandler.can_handle
  | .kinesis => KinesisStreamHandler.can_handle
  | .sns => SNSHandler.can_handle
  | .eventbridge => EventBridgeHandler.can_handle
  | .kafka => KafkaHandler.can_handle
  | .custom => CustomHandler.can_handle

/-- Dispatch-level `parse_event`: selects the variant's parser. -/
def parse_event : HandlerKind → Dict → Except PyErr ParsedEvent
  | .apigateway, e => (APIGatewayEvent.of_event e).map .apigateway
  | .sqs, e => (SQSEvent.of_event e).map .sqs
  | .s3, e => (S3Event.of_event e).map .s3
  | .dynamodb, e => (DynamoDBStreamEvent.of_event e).map .dynamodb
  | .kinesis, e => (KinesisStreamEvent.of_event e).map .kinesis
  | .sns, e => (SNSEvent.of_event e).map .sns
  | .eventbridge, e => .ok (.eventbridge (EventBridgeEvent.of_event e))
  | .kafka, e => (KafkaEvent.of_event e).map .kafka
  | .custom, e => .ok (.custom (CustomEvent.of_event e))

/-! ### The router (`router.py`)

`γ` is the opaque invocation-context type, `ρ` the opaque callback result
type; callbacks are arbitrary functions, as the dispatcher treats them. -/

/-- Embeds `HandlerRegistration` (`base.py`): callback, handler variant,
and the inert path/method routing metadata. -/
structure HandlerRegistration (γ ρ : Type) where
  func : ParsedEvent → γ → ρ
  handler : HandlerKind
  path : Option String
  method : Option String

/-- Embeds the `Router` state: the ordered registration table
(`_handlers`) and the at-most-one fallback slot (`_custom_handler`). -/
structure Router (γ ρ : Type) where
  handlers : List (HandlerRegistration γ ρ)
  custom_handler : Option (HandlerRegistration γ ρ)

/-- A freshly constructed `Router()`. -/
def Router.new (γ ρ : Type) : Router γ ρ := ⟨[], none⟩

/-- Embeds the non-fallback registration decorators (`router.sqs()` etc.):
append one entry at the end of the table.  The `apigateway` decorator
passes `path`/`method` metadata; the others pass none. -/
def Router.register (r : Router γ ρ) (k : HandlerKind)
    (f : ParsedEvent → γ → ρ) (path method : Option String) : Router γ ρ :=
  { r with handlers := r.handlers ++ [⟨f, k, path, method⟩] }

/-- Embeds the `Router.custom()` decorator: raises `ValueError` when the
fallback slot is occupied, leaving the router unchanged; otherwise fills
the slot. -/
def Router.custom (r : Router γ ρ) (f : ParsedEvent → γ → ρ) :
    Except PyErr (Router γ ρ) :=
  match r.custom_handler with
  | some _ => .error (.valueError "Only one custom handler can be registered")
  | none => .ok { r with custom_handler := some ⟨f, .custom, none, none⟩ }

/-- The scan inside `Router.dispatch`: walk the table in order; a
`can_handle` exception propagates; on the first `True`, parse and invoke
that entry's callback; when the table is exhausted use the fallback if
present, else raise `ValueError`. -/
def dispatch_loop (event : Dict) (ctx : γ) (fb : Option (HandlerRegistration γ ρ)) :
    List (HandlerRegistration γ ρ) → Except PyErr ρ
  | [] =>
    match fb with
    | some c => (parse_event c.handler event).map (fun pe => c.func pe ctx)
    | none => .error (.valueError "No handler found for the given event type")
  | reg :: rest =>
    match can_handle reg.handler event with
    | .error err => .error err
    | .ok true => (parse_event reg.handler event).map (fun pe => reg.func pe ctx)
    | .ok false => dispatch_loop event ctx fb rest

/-- Embeds `Router.dispatch`. -/
def Router.dispatch (r : Router γ ρ) (event : Dict) (ctx : γ) : Except PyErr ρ :=
  dispatch_loop event ctx r.custom_handler r.handlers

/-! ### Helper lemmas -/

theorem listMapE_length (f : α → Except PyErr β) :
    ∀ {l : List α} {ys : List β}, listMapE f l = .ok ys → ys.length = l.length := by
  intro l
  induction l with
  | nil =>
    intro ys h
    simp only [listMapE, Except.ok.injEq] at h
    subst h
    rfl
  | cons x t ih =>
    intro ys h
    cases hfx : f x with
    | error e => simp [listMapE, hfx] at h
    | ok y =>
      cases hrest : listMapE f t with
      | error e => simp [listMapE, hfx, hrest] at h
      | ok ys' =>
        simp only [listMapE, hfx, hrest, Except.ok.injEq] at h
        subst h
        simpa using ih hrest

theorem listMapE_get (f : α → Except PyErr β) :
    ∀ {l : List α} {ys : List β}, listMapE f l = .ok ys →
      ∀ i (h1 : i < l.length) (h2 : i < ys.length),
        f (l.get ⟨i, h1⟩) = .ok (ys.get ⟨i, h2⟩) := by
  intro l
  induction l with
  | nil =>
    intro ys h i h1 h2
    exact absurd h1 (Nat.not_lt_zero i)
  | cons x t ih =>
    intro ys h i h1 h2
    cases hfx : f x with
    | error e => simp [listMapE, hfx] at h
    | ok y =>
      cases hrest : listMapE f t with
      | error e => simp [listMapE, hfx, hrest] at h
      | ok ys' =>
        simp only [listMapE, hfx, hrest, Except.ok.injEq] at h
        subst h
        cases i with
        | zero => simpa using hfx
        | succ j =>
          simpa using ih hrest j (Nat.lt_of_succ_lt_succ h1) (Nat.lt_of_succ_lt_succ h2)

theorem listMapE_total (f : α → Except PyErr β) :
    ∀ {l : List α}, (∀ x ∈ l, ∃ y, f x = .ok y) → ∃ ys, listMapE f l = .ok ys := by
  intro l
  induction l with
  | nil => exact fun _ => ⟨[], rfl⟩
  | cons x t ih =>
    intro h
    obtain ⟨y, hy⟩ := h x (List.mem_cons_self x t)
    obtain ⟨ys, hys⟩ := ih fun z hz => h z (List.mem_cons_of_mem x hz)
    exact ⟨y :: ys, by simp [listMapE, hy, hys]⟩

theorem any_key_eq_dlookup (kvs : List (String × JVal)) (key : String) :
    (kvs.any fun kv => kv.1 = key) = (dlookup kvs key).isSome := by
  induction kvs with
  | nil => rfl
  | cons kv t ih =>
    by_cases h : kv.1 = key
    · simp [dlookup, h]
    · simp [dlookup, h, ih]

/-- Modelled from the spec's match-condition table: the payload has a
non-empty record sequence under `"Records"` whose first record is a
mapping whose `key` field equals `tag`.  This is the spec-side statement
of the record-batch match conditions, to be compared with the code-side
`batch_can_handle`. -/
def batch_match_spec (key tag : String) (e : Dict) : Bool :=
  match dlookup e "Records" with
  | some (.arr (.obj kvs :: _)) =>
    match dlookup kvs key with
    | some v => pyEqStr v tag
    | none => false
  | _ => false

/-- The well-shapedness condition under which the record-batch
`can_handle` tests are exception-free: the record-sequence key is absent,
or maps to a sequence that is empty or starts with a mapping. -/
def records_shape_ok (e : Dict) : Bool :=
  match dlookup e "Records" with
  | none => true
  | some (.arr []) => true
  | some (.arr (.obj _ :: _)) => true
  | some _ => false

theorem batch_can_handle_of_shape (key tag : String) (e : Dict)
    (h : records_shape_ok e = true) :
    batch_can_handle key tag e = .ok (batch_match_spec key tag e) := by
  unfold batch_can_handle batch_match_spec
  cases hR : dlookup e "Records" with
  | none => rfl
  | some r =>
    rw [records_shape_ok, hR] at h
    cases r with
    | arr l =>
      cases l with
      | nil => rfl
      | cons x t =>
        cases x with
        | obj kvs =>
          cases hk : dlookup kvs key with
          | none =>
            simp [pyLen, pyIndex0, pyContains, pyGetItemStr, any_key_eq_dlookup, hk]
          | some v =>
            simp [pyLen, pyIndex0, pyContains, pyGetItemStr, any_key_eq_dlookup, hk]
        | null => simp at h
        | bool b => simp at h
        | int n => simp at h
        | float z => simp at h
        | str s => simp at h
        | bytes bs => simp at h
        | arr l2 => simp at h
    | null => simp at h
    | bool b => simp at h
    | int n => simp at h
    | float z => simp at h
    | str s => simp at h
    | bytes bs => simp at h
    | obj kvs => simp at h

theorem batch_can_handle_ok_true_iff (key tag : String) (e : Dict) :
    batch_can_handle key tag e = .ok true ↔ batch_match_spec key tag e = true := by
  unfold batch_can_handle batch_match_spec
  cases hR : dlookup e "Records" with
  | none => simp
  | some r =>
    cases r with
    | null => simp [pyLen]
    | bool b => simp [pyLen]
    | int n => simp [pyLen]
    | float z => simp [pyLen]
    | str s =>
      cases hs : s.data with
      | nil => simp [pyLen, hs]
      | cons c cs =>
        cases hinf : listInfix key.data [c] with
        | false => simp [pyLen, pyIndex0, pyContains, hs, hinf]
        | true => simp [pyLen, pyIndex0, pyContains, pyGetItemStr, hs, hinf]
    | bytes bs =>
      cases bs with
      | nil => simp [pyLen]
      | cons b bt => simp [pyLen, pyIndex0, pyContains]
    | obj kvs =>
      cases kvs with
      | nil => simp [pyLen]
      | cons kv kt => simp [pyLen, pyIndex0]
    | arr l =>
      cases l with
      | nil => simp [pyLen]
      | cons x t =>
        cases x with
        | obj kvs =>
          cases hk : dlookup kvs key with
          | none =>
            simp [pyLen, pyIndex0, pyContains, pyGetItemStr, any_key_eq_dlookup, hk]
          | some v =>
            simp [pyLen, pyIndex0, pyContains, pyGetItemStr, any_key_eq_dlookup, hk]
        | str s2 =>
          cases hinf : listInfix key.data s2.data with
          | false => simp [pyLen, pyIndex0, pyContains, hinf]
          | true => simp [pyLen, pyIndex0, pyContains, pyGetItemStr, hinf]
        | arr l2 =>
          cases hm : l2.any (fun v => pyEqStr v key) with
          | false => simp [pyLen, pyIndex0, pyContains, hm]
          | true => simp [pyLen, pyIndex0, pyContains, pyGetItemStr, hm]
        | null => simp [pyLen, pyIndex0, pyContains]
        | bool b2 => simp [pyLen, pyIndex0, pyContains]
        | int n2 => simp [pyLen, pyIndex0, pyContains]
        | float z2 => simp [pyLen, pyIndex0, pyContains]
        | bytes bs2 => simp [pyLen, pyIndex0, pyContains]

theorem dispatch_loop_first_match {γ ρ : Type} (event : Dict) (ctx : γ)
    (fb : Option (HandlerRegistration γ ρ)) :
    ∀ (hs : List (HandlerRegistration γ ρ)) (i : Nat) (hi : i < hs.length),
      can_handle (hs.get ⟨i, hi⟩).handler event = .ok true →
      (∀ j (hj : j < i),
        can_handle (hs.get ⟨j, Nat.lt_trans hj hi⟩).handler event = .ok false) →
      dispatch_loop event ctx fb hs =
        (parse_event (hs.get ⟨i, hi⟩).handler event).map
          (fun pe => (hs.get ⟨i, hi⟩).func pe ctx) := by
  intro hs
  induction hs with
  | nil => intro i hi _ _; exact absurd hi (Nat.not_lt_zero i)
  | cons reg rest ih =>
    intro i hi htrue hfalse
    cases i with
    | zero =>
      simp only [List.get] at htrue ⊢
      simp [dispatch_loop, htrue]
    | succ j =>
      have h0 : can_handle reg.handler event = .ok false := by
        simpa using hfalse 0 (Nat.succ_pos j)
      have hj : j < rest.length := Nat.lt_of_succ_lt_succ hi
      have hrest := ih j hj (by simpa using htrue)
        (fun k hk => by simpa using hfalse (k + 1) (Nat.succ_lt_succ hk))
      simp only [List.get]
      simp [dispatch_loop, h0, hrest]

theorem dispatch_loop_all_false {γ ρ : Type} (event : Dict) (ctx : γ)
    (fb : Option (HandlerRegistration γ ρ)) :
    ∀ hs, (∀ reg ∈ hs, can_handle reg.handler event = .ok false) →
      dispatch_loop event ctx fb hs = dispatch_loop event ctx fb [] := by
  intro hs
  induction hs with
  | nil => intro _; rfl
  | cons reg rest ih =>
    intro h
    have h0 := h reg (List.mem_cons_self reg rest)
    have hr := ih fun r hr => h r (List.mem_cons_of_mem reg hr)
    simp [dispatch_loop, h0, hr]

/-- Two registrations that agree on everything the dispatcher consults:
same handler variant and same callback (path/method may differ). -/
def same_behavior {γ ρ : Type} (a b : HandlerRegistration γ ρ) : Prop :=
  a.handler = b.handler ∧ a.func = b.func

theorem dispatch_loop_congr {γ ρ : Type} (event : Dict) (ctx : γ)
    {fb1 fb2 : Option (HandlerRegistration γ ρ)}
    {hs1 hs2 : List (HandlerRegistration γ ρ)}
    (hf : List.Forall₂ same_behavior hs1 hs2)
    (hfb : (fb1 = none ∧ fb2 = none) ∨
      ∃ a b, fb1 = some a ∧ fb2 = some b ∧ same_behavior a b) :
    dispatch_loop event ctx fb1 hs1 = dispatch_loop event ctx fb2 hs2 := by
  induction hf with
  | nil =>
    rcases hfb with ⟨h1, h2⟩ | ⟨a, b, h1, h2, hk, hfn⟩
    · simp [dispatch_loop, h1, h2]
    · simp [dispatch_loop, h1, h2, hk, hfn]
  | cons hab hrest ih =>
    rename_i a b l1 l2
    obtain ⟨hk, hfn⟩ := hab
    cases hc : can_handle b.handler event with
    | error err => simp [dispatch_loop, hk, hfn, hc]
    | ok bv =>
      cases bv with
      | true => simp [dispatch_loop, hk, hfn, hc]
      | false => simp [dispatch_loop, hk, hfn, hc, ih]

theorem foldl_register_custom {γ ρ : Type}
    (regs : List (HandlerKind × (ParsedEvent → γ → ρ) × Option String × Option String)) :
    ∀ r : Router γ ρ,
      (regs.foldl (fun acc x => acc.register x.1 x.2.1 x.2.2.1 x.2.2.2) r).custom_handler =
        r.custom_handler := by
  induction regs with
  | nil => intro r; rfl
  | cons x t ih =>
    intro r
    simpa using ih (r.register x.1 x.2.1 x.2.2.1 x.2.2.2)

/-! ### Claim theorems -/

/-- C1: for every registration table and payload, `dispatch` scans the
entries in registration order and, at the first entry whose classifier
answers true (all earlier entries answering false), parses the payload
with that entry's parser and returns that entry's callback result on the
typed event and the invocation context, unchanged; in particular when
several classifiers would match, the earliest-registered entry wins,
deterministically (dispatch is a pure function of the table and payload). -/
theorem claim_C1_dispatch_first_match {γ ρ : Type} (r : Router γ ρ) (event : Dict)
    (ctx : γ) (i : Nat) (hi : i < r.handlers.length)
    (htrue : can_handle (r.handlers.get ⟨i, hi⟩).handler event = .ok true)
    (hfalse : ∀ j (hj : j < i),
      can_handle (r.handlers.get ⟨j, Nat.lt_trans hj hi⟩).handler event = .ok false) :
    r.dispatch event ctx =
      (parse_event (r.handlers.get ⟨i, hi⟩).handler event).map
        (fun pe => (r.handlers.get ⟨i, hi⟩).func pe ctx) :=
  dispatch_loop_first_match event ctx r.custom_handler r.handlers i hi htrue hfalse

/-- C1 witness: a payload whose first record carries both event-source
spellings satisfies both the SNS and SQS classifiers; with SNS registered
first, dispatch invokes the SNS entry's callback. -/
theorem claim_C1_witness :
    can_handle .sns [("Records", .arr [.obj [("eventSource", .str "aws:sqs"),
        ("EventSource", .str "aws:sns")]])] = .ok true ∧
    can_handle .sqs [("Records", .arr [.obj [("eventSource", .str "aws:sqs"),
        ("EventSource", .str "aws:sns")]])] = .ok true ∧
    Router.dispatch
      (⟨[⟨fun _ _ => 1, .sns, none, none⟩, ⟨fun _ _ => 2, .sqs, none, none⟩], none⟩ :
        Router Nat Nat)
      [("Records", .arr [.obj [("eventSource", .str "aws:sqs"),
        ("EventSource", .str "aws:sns")]])] 0 =
      (parse_event .sns [("Records", .arr [.obj [("eventSource", .str "aws:sqs"),
        ("EventSource", .str "aws:sns")]])]).map (fun _ => 1) :=
  ⟨rfl, rfl,
    claim_C1_dispatch_first_match _ _ 0 0 (by decide) rfl
      (fun j hj => absurd hj (Nat.not_lt_zero j))⟩

/-- C4: once a fallback (custom) handler is registered, a second custom
registration fails with the configuration `ValueError` no matter which
non-fallback registrations happened in between, and the fallback slot
still holds the first registration. -/
theorem claim_C4_second_custom_fails {γ ρ : Type} (r : Router γ ρ)
    (c : HandlerRegistration γ ρ)
    (regs : List (HandlerKind × (ParsedEvent → γ → ρ) × Option String × Option String))
    (f : ParsedEvent → γ → ρ) (hc : r.custom_handler = some c) :
    (regs.foldl (fun acc x => acc.register x.1 x.2.1 x.2.2.1 x.2.2.2) r).custom f =
        .error (.valueError "Only one custom handler can be registered") ∧
      (regs.foldl (fun acc x => acc.register x.1 x.2.1 x.2.2.1 x.2.2.2) r).custom_handler =
        some c := by
  have hp := foldl_register_custom regs r
  rw [hc] at hp
  exact ⟨by simp [Router.custom, hp], hp⟩

/-- C4 witness: register a custom handler, then an SQS and a gateway
handler; the second custom registration fails and the slot is unchanged. -/
theorem claim_C4_witness :
    ([((.sqs : HandlerKind), fun _ _ => 1, none, none),
        (.apigateway, fun _ _ => 2, some "/a", some "GET")].foldl
        (fun acc x => acc.register x.1 x.2.1 x.2.2.1 x.2.2.2)
        (⟨[], some ⟨fun _ _ => 0, .custom, none, none⟩⟩ : Router Nat Nat)).custom
        (fun _ _ => 3) =
        .error (.valueError "Only one custom handler can be registered") ∧
      ([((.sqs : HandlerKind), fun _ _ => 1, none, none),
        (.apigateway, fun _ _ => 2, some "/a", some "GET")].foldl
        (fun acc x => acc.register x.1 x.2.1 x.2.2.1 x.2.2.2)
        (⟨[], some ⟨fun _ _ => 0, .custom, none, none⟩⟩ : Router Nat Nat)).custom_handler =
        some ⟨fun _ _ => 0, .custom, none, none⟩ :=
  claim_C4_second_custom_fails _ _ _ _ rfl

/-- C5: when no registered classifier matches and no fallback is
registered, dispatch fails with the classification `ValueError` (so no
callback is invoked). -/
theorem claim_C5_no_match_no_fallback {γ ρ : Type} (r : Router γ ρ) (event : Dict)
    (ctx : γ)
    (hall : ∀ reg ∈ r.handlers, can_handle reg.handler event = .ok false)
    (hfb : r.custom_handler = none) :
    r.dispatch event ctx =
      .error (.valueError "No handler found for the given event type") := by
  unfold Router.dispatch
  rw [dispatch_loop_all_false event ctx r.custom_handler r.handlers hall, hfb]
  rfl

/-- C5 witness: an unrecognizable payload against an SQS and an
EventBridge registration, no fallback. -/
theorem claim_C5_witness :
    Router.dispatch
      (⟨[⟨fun _ _ => 1, .sqs, none, none⟩, ⟨fun _ _ => 2, .eventbridge, none, none⟩],
        none⟩ : Router Nat Nat) [("foo", .int 1)] 0 =
      .error (.valueError "No handler found for the given event type") :=
  claim_C5_no_match_no_fallback _ _ _
    (by
      intro reg h
      simp only [List.mem_cons, List.not_mem_nil, or_false] at h
      rcases h with h | h <;> subst h <;> rfl)
    rfl

/-- C6: when no registered classifier matches and a fallback is
registered, dispatch invokes the fallback callback once, on the
identity-parsed payload: the custom typed event carries the raw input
payload unchanged (both as `raw_event` and as `event_data`). -/
theorem claim_C6_fallback_identity {γ ρ : Type} (r : Router γ ρ) (event : Dict)
    (ctx : γ) (c : HandlerRegistration γ ρ)
    (hall : ∀ reg ∈ r.handlers, can_handle reg.handler event = .ok false)
    (hfb : r.custom_handler = some c) (hk : c.handler = .custom) :
    r.dispatch event ctx = .ok (c.func (.custom ⟨event, event⟩) ctx) := by
  unfold Router.dispatch
  rw [dispatch_loop_all_false event ctx r.custom_handler r.handlers hall, hfb]
  simp [dispatch_loop, hk, parse_event, CustomEvent.of_event, Except.map]

/-- C6 witness: an unmatched payload with one SQS registration and a
fallback; the fallback receives the raw payload as its typed event. -/
theorem claim_C6_witness :
    Router.dispatch
      (⟨[⟨fun _ _ => 9, .sqs, none, none⟩],
        some ⟨fun _ _ => 5, .custom, none, none⟩⟩ : Router Nat Nat)
      [("foo", .str "bar")] 0 =
      .ok ((fun _ _ => 5 : ParsedEvent → Nat → Nat)
        (.custom ⟨[("foo", .str "bar")], [("foo", .str "bar")]⟩) 0) :=
  claim_C6_fallback_identity _ _ _ _
    (by
      intro reg h
      simp only [List.mem_cons, List.not_mem_nil, or_false] at h
      subst h
      rfl)
    rfl rfl

/-- C2 counterexample: `matches` is not total.  When the record-sequence
key maps to a non-sequence (`len(5)`) or the first record is a non-mapping
(`'eventSource' in 7`), the cited classifiers raise `TypeError` instead of
returning false. -/
theorem claim_C2_counterexample :
    SQSHandler.can_handle [("Records", .int 5)] = .error .typeError ∧
      KinesisStreamHandler.can_handle [("Records", .arr [.int 7])] =
        .error .typeError :=
  ⟨rfl, rfl⟩

/-- C2 amended: every classifier returns a boolean without raising
provided the record-sequence key, when present, maps to a sequence that is
empty or starts with a mapping (the non-record classifiers are total
unconditionally); and structural absence of the record-sequence key makes
every record-batch classifier answer false, never an exception. -/
theorem claim_C2_amended :
    (∀ (k : HandlerKind) (e : Dict), records_shape_ok e = true →
        ∃ b, can_handle k e = .ok b) ∧
      ∀ e : Dict, dlookup e "Records" = none →
        ∀ k ∈ [HandlerKind.sqs, .s3, .dynamodb, .kinesis, .sns],
          can_handle k e = .ok false := by
  constructor
  · intro k e h
    cases k with
    | apigateway => exact ⟨_, rfl⟩
    | eventbridge => exact ⟨_, rfl⟩
    | custom => exact ⟨_, rfl⟩
    | kafka =>
      cases hk : dlookup e "eventSource" with
      | none =>
        exact ⟨false, by simp [can_handle, KafkaHandler.can_handle, hk]⟩
      | some v =>
        exact ⟨(pyEqStr v "aws:kafka" || pyEqStr v "aws:self-managed-kafka") &&
          (dlookup e "records").isSome,
          by simp [can_handle, KafkaHandler.can_handle, hk]⟩
    | sqs => exact ⟨_, batch_can_handle_of_shape _ _ e h⟩
    | s3 => exact ⟨_, batch_can_handle_of_shape _ _ e h⟩
    | dynamodb => exact ⟨_, batch_can_handle_of_shape _ _ e h⟩
    | kinesis => exact ⟨_, batch_can_handle_of_shape _ _ e h⟩
    | sns => exact ⟨_, batch_can_handle_of_shape _ _ e h⟩
  · intro e he k hk
    simp only [List.mem_cons, List.not_mem_nil, or_false] at hk
    rcases hk with rfl | rfl | rfl | rfl | rfl <;>
      simp [can_handle, SQSHandler.can_handle, S3Handler.can_handle,
        DynamoDBStreamHandler.can_handle, KinesisStreamHandler.can_handle,
        SNSHandler.can_handle, batch_can_handle, he]

/-- C2 amended witness: on the empty payload every classifier answers
without raising, and the record-batch classifiers answer false. -/
theorem claim_C2_witness :
    (∃ b, can_handle .sqs ([] : Dict) = .ok b) ∧
      can_handle .kinesis ([] : Dict) = .ok false :=
  ⟨claim_C2_amended.1 .sqs [] rfl,
    claim_C2_amended.2 [] rfl .kinesis (by simp)⟩

/-- C7: the queue-batch (SQS) classifier accepts exactly the payloads with
a non-empty record sequence whose first record's `eventSource` field
equals `aws:sqs`; the pub/sub-batch (SNS) classifier tests the same shape
but reads the capitalized `EventSource` field against `aws:sns`; hence on
a first record carrying only one of the two spellings they never both
accept. -/
theorem claim_C7_spelling_split :
    (∀ e : Dict, SQSHandler.can_handle e = .ok true ↔
        batch_match_spec "eventSource" "aws:sqs" e = true) ∧
      (∀ e : Dict, SNSHandler.can_handle e = .ok true ↔
        batch_match_spec "EventSource" "aws:sns" e = true) ∧
      ∀ (e : Dict) (kvs : List (String × JVal)) (rest : List JVal),
        dlookup e "Records" = some (.arr (.obj kvs :: rest)) →
        (dlookup kvs "eventSource" = none ∨ dlookup kvs "EventSource" = none) →
        ¬(SQSHandler.can_handle e = .ok true ∧ SNSHandler.can_handle e = .ok true) := by
  refine ⟨fun e => batch_can_handle_ok_true_iff _ _ e,
    fun e => batch_can_handle_ok_true_iff _ _ e, ?_⟩
  rintro e kvs rest hR hone ⟨h1, h2⟩
  have hs1 := (batch_can_handle_ok_true_iff "eventSource" "aws:sqs" e).mp h1
  have hs2 := (batch_can_handle_ok_true_iff "EventSource" "aws:sns" e).mp h2
  rcases hone with hn | hn
  · simp [batch_match_spec, hR, hn] at hs1
  · simp [batch_match_spec, hR, hn] at hs2

/-- C7 witness: a first record carrying only the lowercase spelling
satisfies the hypotheses; the two classifiers do not both accept. -/
theorem claim_C7_witness :
    ¬(SQSHandler.can_handle [("Records", .arr [.obj [("eventSource", .str "aws:sqs")]])] =
        .ok true ∧
      SNSHandler.can_handle [("Records", .arr [.obj [("eventSource", .str "aws:sqs")]])] =
        .ok true) :=
  claim_C7_spelling_split.2.2 _ [("eventSource", .str "aws:sqs")] [] rfl (Or.inr rfl)

/-- Modelled from the claim's words for the Kafka family: the payload's
top-level event-source field equals `aws:kafka` or
`aws:self-managed-kafka` and a `records` key is present. -/
def kafka_match_spec (e : Dict) : Bool :=
  match dlookup e "eventSource" with
  | some v => (pyEqStr v "aws:kafka" || pyEqStr v "aws:self-managed-kafka") &&
      (dlookup e "records").isSome
  | none => false

/-- C10: the Kafka classifier matches exactly when the top-level
`eventSource` equals one of the two Kafka tags and `records` is present;
the Kafka parser accepts the record collection as a sequence, and accepts
a mapping by flattening its values, in order, into the typed record list. -/
theorem claim_C10_kafka :
    (∀ e : Dict, KafkaHandler.can_handle e = .ok true ↔ kafka_match_spec e = true) ∧
      (∀ (e : Dict) (l : List JVal) (rs : List KafkaRecord),
        dlookup e "records" = some (.arr l) →
        listMapE KafkaRecord.from_dict l = .ok rs →
        ∃ ev, KafkaEvent.of_event e = .ok ev ∧ ev.records = rs) ∧
      ∀ (e : Dict) (kvs : List (String × JVal)) (rs : List KafkaRecord),
        dlookup e "records" = some (.obj kvs) →
        listMapE KafkaRecord.from_dict (kvs.map Prod.snd) = .ok rs →
        ∃ ev, KafkaEvent.of_event e = .ok ev ∧ ev.records = rs := by
  refine ⟨?_, ?_, ?_⟩
  · intro e
    unfold KafkaHandler.can_handle kafka_match_spec
    cases hk : dlookup e "eventSource" with
    | none => simp
    | some v => simp
  · intro e l rs hR hm
    exact ⟨{ raw_event := e
             event_source := (dlookup e "eventSource").getD (.str "")
             event_source_arn := (dlookup e "eventSourceArn").getD (.str "")
             bootstrap_servers := (dlookup e "bootstrapServers").getD (.str "")
             records := rs },
      by simp [KafkaEvent.of_event, hR, pyIter, hm, Bind.bind, Except.bind], rfl⟩
  · intro e kvs rs hR hm
    exact ⟨{ raw_event := e
             event_source := (dlookup e "eventSource").getD (.str "")
             event_source_arn := (dlookup e "eventSourceArn").getD (.str "")
             bootstrap_servers := (dlookup e "bootstrapServers").getD (.str "")
             records := rs },
      by simp [KafkaEvent.of_event, hR, hm, Bind.bind, Except.bind], rfl⟩

/-- C10 witness: one sequence-shaped and one mapping-shaped `records`
value, each parsed to the expected typed records. -/
theorem claim_C10_witness :
    (∃ ev, KafkaEvent.of_event [("eventSource", .str "aws:kafka"),
        ("records", .arr [.obj [("topic", .str "t")]])] = .ok ev ∧
      ev.records = [⟨.str "t", .int 0, .int 0, .int 0, .str "", .bytes [],
        .bytes [], .arr []⟩]) ∧
      ∃ ev, KafkaEvent.of_event [("records", .obj [("tp-0", .obj [("topic", .str "u")])])] =
          .ok ev ∧
        ev.records = [⟨.str "u", .int 0, .int 0, .int 0, .str "", .bytes [],
          .bytes [], .arr []⟩] :=
  ⟨claim_C10_kafka.2.1 _ [.obj [("topic", .str "t")]] _ rfl rfl,
    claim_C10_kafka.2.2 _ [("tp-0", .obj [("topic", .str "u")])] _ rfl rfl⟩

/-- C8: for each batch family (queue/SQS, blob-storage/S3,
change-stream/DynamoDB, pub-sub/SNS), when the payload's `Records` key
holds a sequence of N records and parsing succeeds, the typed event holds
exactly N typed records and the record at each index is the one derived
from the source record at the same index. -/
theorem claim_C8_order_preserved :
    (∀ (e : Dict) (l : List JVal) (ev : SQSEvent),
        dlookup e "Records" = some (.arr l) → SQSEvent.of_event e = .ok ev →
        ev.records.length = l.length ∧
          ∀ i (h1 : i < l.length) (h2 : i < ev.records.length),
            SQSMessage.from_dict (l.get ⟨i, h1⟩) = .ok (ev.records.get ⟨i, h2⟩)) ∧
      (∀ (e : Dict) (l : List JVal) (ev : S3Event),
        dlookup e "Records" = some (.arr l) → S3Event.of_event e = .ok ev →
        ev.records.length = l.length ∧
          ∀ i (h1 : i < l.length) (h2 : i < ev.records.length),
            S3Record.from_dict (l.get ⟨i, h1⟩) = .ok (ev.records.get ⟨i, h2⟩)) ∧
      (∀ (e : Dict) (l : List JVal) (ev : DynamoDBStreamEvent),
        dlookup e "Records" = some (.arr l) → DynamoDBStreamEvent.of_event e = .ok ev →
        ev.records.length = l.length ∧
          ∀ i (h1 : i < l.length) (h2 : i < ev.records.length),
            DynamoDBStreamRecord.from_dict (l.get ⟨i, h1⟩) = .ok (ev.records.get ⟨i, h2⟩)) ∧
      ∀ (e : Dict) (l : List JVal) (ev : SNSEvent),
        dlookup e "Records" = some (.arr l) → SNSEvent.of_event e = .ok ev →
        ev.records.length = l.length ∧
          ∀ i (h1 : i < l.length) (h2 : i < ev.records.length),
            SNSMessage.from_dict (l.get ⟨i, h1⟩) = .ok (ev.records.get ⟨i, h2⟩) := by
  refine ⟨?_, ?_, ?_, ?_⟩
  · intro e l ev hR hok
    rw [SQSEvent.of_event, hR] at hok
    cases hm : listMapE SQSMessage.from_dict l with
    | error err => simp [pyIter, hm, Bind.bind, Except.bind, Option.getD] at hok
    | ok rs =>
      simp only [pyIter, hm, Bind.bind, Except.bind, Option.getD,
        Except.ok.injEq] at hok
      subst hok
      exact ⟨listMapE_length _ hm, fun i h1 h2 => listMapE_get _ hm i h1 h2⟩
  · intro e l ev hR hok
    rw [S3Event.of_event, hR] at hok
    cases hm : listMapE S3Record.from_dict l with
    | error err => simp [pyIter, hm, Bind.bind, Except.bind, Option.getD] at hok
    | ok rs =>
      simp only [pyIter, hm, Bind.bind, Except.bind, Option.getD,
        Except.ok.injEq] at hok
      subst hok
      exact ⟨listMapE_length _ hm, fun i h1 h2 => listMapE_get _ hm i h1 h2⟩
  · intro e l ev hR hok
    rw [DynamoDBStreamEvent.of_event, hR] at hok
    cases hm : listMapE DynamoDBStreamRecord.from_dict l with
    | error err => simp [pyIter, hm, Bind.bind, Except.bind, Option.getD] at hok
    | ok rs =>
      simp only [pyIter, hm, Bind.bind, Except.bind, Option.getD,
        Except.ok.injEq] at hok
      subst hok
      exact ⟨listMapE_length _ hm, fun i h1 h2 => listMapE_get _ hm i h1 h2⟩
  · intro e l ev hR hok
    rw [SNSEvent.of_event, hR] at hok
    cases hm : listMapE SNSMessage.from_dict l with
    | error err => simp [pyIter, hm, Bind.bind, Except.bind, Option.getD] at hok
    | ok rs =>
      simp only [pyIter, hm, Bind.bind, Except.bind, Option.getD,
        Except.ok.injEq] at hok
      subst hok
      exact ⟨listMapE_length _ hm, fun i h1 h2 => listMapE_get _ hm i h1 h2⟩

/-- C8 witness: a two-record SQS batch keeps length two and index-wise
derivation, in source order. -/
theorem claim_C8_witness :
    ([(⟨.str "m1", .str "b1", .obj []⟩ : SQSMessage), ⟨.str "m2", .str "b2", .obj []⟩] :
        List SQSMessage).length =
      ([.obj [("messageId", .str "m1"), ("body", .str "b1")],
        .obj [("messageId", .str "m2"), ("body", .str "b2")]] : List JVal).length ∧
      ∀ i (h1 : i < ([.obj [("messageId", .str "m1"), ("body", .str "b1")],
          .obj [("messageId", .str "m2"), ("body", .str "b2")]] : List JVal).length)
        (h2 : i < ([(⟨.str "m1", .str "b1", .obj []⟩ : SQSMessage),
          ⟨.str "m2", .str "b2", .obj []⟩] : List SQSMessage).length),
        SQSMessage.from_dict (([.obj [("messageId", .str "m1"), ("body", .str "b1")],
            .obj [("messageId", .str "m2"), ("body", .str "b2")]] : List JVal).get ⟨i, h1⟩) =
          .ok (([(⟨.str "m1", .str "b1", .obj []⟩ : SQSMessage),
            ⟨.str "m2", .str "b2", .obj []⟩] : List SQSMessage).get ⟨i, h2⟩) :=
  claim_C8_order_preserved.1
    [("Records", .arr [.obj [("messageId", .str "m1"), ("body", .str "b1")],
      .obj [("messageId", .str "m2"), ("body", .str "b2")]])]
    _ ⟨_, _⟩ rfl rfl

/-- C3 counterexample: typed-event construction does not default on type
mismatch (a present `messageId` of the wrong type is carried through
unchanged, not replaced by the empty-string default), and it does have a
failure path (a non-sequence record collection raises `TypeError`). -/
theorem claim_C3_counterexample :
    SQSEvent.of_event [("Records", .arr [.obj [("messageId", .int 5)]])] =
        .ok ⟨[("Records", .arr [.obj [("messageId", .int 5)]])],
          [⟨.int 5, .str "", .obj []⟩]⟩ ∧
      (JVal.int 5 ≠ JVal.str "") ∧
      SQSEvent.of_event [("Records", .int 5)] = .error .typeError :=
  ⟨rfl, fun h => JVal.noConfusion h, rfl⟩

/-- C3 amended: field extraction is total on mapping-shaped records and
defaults exactly on absence — a present field is carried through unchanged
whatever its type; construction succeeds whenever the record collection is
a sequence of mappings (or the key is absent), and for the gateway family
whenever the request context and its identity block are mappings, in which
case absent top-level fields default. -/
theorem claim_C3_amended :
    (∀ kvs : List (String × JVal),
        SQSMessage.from_dict (.obj kvs) =
          .ok ⟨(dlookup kvs "messageId").getD (.str ""),
            (dlookup kvs "body").getD (.str ""),
            (dlookup kvs "messageAttributes").getD (.obj [])⟩) ∧
      (∀ (e : Dict) (l : List JVal),
        dlookup e "Records" = some (.arr l) →
        (∀ x ∈ l, ∃ kvs, x = .obj kvs) →
        ∃ ev, SQSEvent.of_event e = .ok ev ∧ ev.records.length = l.length) ∧
      (∀ e : Dict, dlookup e "Records" = none → SQSEvent.of_event e = .ok ⟨e, []⟩) ∧
      ∀ (e : Dict) (ckvs : List (String × JVal)),
        dlookup e "requestContext" = some (.obj ckvs) →
        (∃ ikvs, (dlookup ckvs "identity").getD (.obj []) = .obj ikvs) →
        (APIGatewayEvent.of_event e).map
            (fun ev => (ev.path, ev.http_method, ev.body)) =
          .ok ((dlookup e "path").getD (.str ""),
            (dlookup e "httpMethod").getD (.str ""),
            (dlookup e "body").getD (.str "")) := by
  refine ⟨fun kvs => rfl, ?_, ?_, ?_⟩
  · intro e l hR hobj
    obtain ⟨rs, hrs⟩ := listMapE_total SQSMessage.from_dict
      (fun x hx => by
        obtain ⟨kvs, rfl⟩ := hobj x hx
        exact ⟨_, rfl⟩)
    refine ⟨⟨e, rs⟩, ?_, listMapE_length _ hrs⟩
    rw [SQSEvent.of_event, hR]
    simp [pyIter, hrs, Bind.bind, Except.bind, Option.getD]
  · intro e he
    rw [SQSEvent.of_event, he]
    rfl
  · intro e ckvs hC hid
    obtain ⟨ikvs, hik⟩ := hid
    rw [APIGatewayEvent.of_event, hC]
    simp only [Option.getD] at hik
    simp only [APIGatewayRequestContext.from_dict, APIGatewayIdentity.from_dict,
      pyGet, Bind.bind, Except.bind, Option.getD, hik]
    rfl

/-- C3 amended witness: a mismatched-type field passes through; a
well-shaped batch and a well-shaped gateway payload both construct. -/
theorem claim_C3_witness :
    SQSMessage.from_dict (.obj [("messageId", .int 5)]) =
        .ok ⟨.int 5, .str "", .obj []⟩ ∧
      (∃ ev, SQSEvent.of_event [("Records", .arr [.obj []])] = .ok ev ∧
        ev.records.length = [JVal.obj []].length) ∧
      (APIGatewayEvent.of_event
          [("httpMethod", .str "GET"), ("path", .str "/users"),
            ("requestContext", .obj [])]).map
          (fun ev => (ev.path, ev.http_method, ev.body)) =
        .ok ((dlookup [("httpMethod", .str "GET"), ("path", .str "/users"),
            ("requestContext", .obj [])] "path").getD (.str ""),
          (dlookup [("httpMethod", .str "GET"), ("path", .str "/users"),
            ("requestContext", .obj [])] "httpMethod").getD (.str ""),
          (dlookup [("httpMethod", .str "GET"), ("path", .str "/users"),
            ("requestContext", .obj [])] "body").getD (.str "")) :=
  ⟨claim_C3_amended.1 [("messageId", .int 5)],
    claim_C3_amended.2.1 [("Records", .arr [.obj []])] [.obj []] rfl
      (fun x hx => ⟨[], by simpa using hx⟩),
    claim_C3_amended.2.2.2 _ [] rfl ⟨[], rfl⟩⟩

/-- C9: the path/method routing metadata is stored but never consulted by
dispatch: any two routers whose tables agree entry-wise on handler variant
and callback (path/method free to differ) dispatch identically on every
payload; and among several gateway registrations with different declared
paths, the first-registered one is invoked for every gateway-shaped
payload. -/
theorem claim_C9_metadata_inert :
    (∀ (γ ρ : Type) (r1 r2 : Router γ ρ),
        List.Forall₂ same_behavior r1.handlers r2.handlers →
        ((r1.custom_handler = none ∧ r2.custom_handler = none) ∨
          ∃ a b, r1.custom_handler = some a ∧ r2.custom_handler = some b ∧
            same_behavior a b) →
        ∀ (event : Dict) (ctx : γ), r1.dispatch event ctx = r2.dispatch event ctx) ∧
      ∀ (γ ρ : Type) (f1 f2 : ParsedEvent → γ → ρ) (p1 p2 m1 m2 : Option String)
        (event : Dict) (ctx : γ),
        APIGatewayHandler.can_handle event = .ok true →
        Router.dispatch ⟨[⟨f1, .apigateway, p1, m1⟩, ⟨f2, .apigateway, p2, m2⟩], none⟩
            event ctx =
          (parse_event .apigateway event).map (fun pe => f1 pe ctx) := by
  constructor
  · intro γ ρ r1 r2 hf hfb event ctx
    exact dispatch_loop_congr event ctx hf hfb
  · intro γ ρ f1 f2 p1 p2 m1 m2 event ctx hm
    simp [Router.dispatch, dispatch_loop, can_handle, hm]

/-- C9 witness: two gateway registrations identical except for their
declared path/method dispatch identically, and on a gateway-shaped payload
the first of two gateway registrations wins regardless of its path. -/
theorem claim_C9_witness :
    Router.dispatch
        (⟨[⟨fun _ _ => 1, .apigateway, some "/a", some "GET"⟩], none⟩ : Router Nat Nat)
        [("httpMethod", .str "GET"), ("path", .str "/x"), ("requestContext", .obj [])]
        0 =
      Router.dispatch
        (⟨[⟨fun _ _ => 1, .apigateway, some "/b", some "POST"⟩], none⟩ : Router Nat Nat)
        [("httpMethod", .str "GET"), ("path", .str "/x"), ("requestContext", .obj [])]
        0 ∧
      Router.dispatch
          (⟨[⟨fun _ _ => 1, .apigateway, some "/a", some "GET"⟩,
            ⟨fun _ _ => 2, .apigateway, some "/b", some "GET"⟩], none⟩ : Router Nat Nat)
          [("httpMethod", .str "GET"), ("path", .str "/x"), ("requestContext", .obj [])]
          0 =
        (parse_event .apigateway
            [("httpMethod", .str "GET"), ("path", .str "/x"),
              ("requestContext", .obj [])]).map (fun pe => (fun _ _ => 1 :
          ParsedEvent → Nat → Nat) pe 0) :=
  ⟨claim_C9_metadata_inert.1 Nat Nat _ _
      (List.Forall₂.cons ⟨rfl, rfl⟩ List.Forall₂.nil) (Or.inl ⟨rfl, rfl⟩) _ 0,
    claim_C9_metadata_inert.2 Nat Nat _ _ (some "/a") (some "/b") (some "GET")
      (some "GET") _ 0 rfl⟩

end LUR
